import Mathlib

/-
Verification of the inventory-ledger subsystem of Industry-Tools
(Inventory_Managment_System).  The definitions below are a shallow embedding
of the parts-variant ledger store (`src/Inventory_Managment_System/database.py`,
class `Database`) and of the products-variant model layer
(`src/Inventory_Managment_System/models/product.py` and
`models/transaction.py`).

Modelling conventions:
* sqlite rows become Lean structures; the two tables become lists inside a
  `Store` structure together with the AUTOINCREMENT counters (sqlite assigns
  rowids 1, 2, ... and, with the AUTOINCREMENT keyword, never reuses an id
  even after a delete).
* Python `ValueError` / `sqlite3.IntegrityError` / `sqlite3.OperationalError`
  become an explicit `DbError`; an operation that raises returns
  `Except.error` and, because the enclosing `with conn` block of the source
  rolls the connection back on an exception, leaves the durable state
  unchanged.
* Monetary REAL columns are modelled as `Rat`; INTEGER columns as `Int`
  (`current_stock` can go negative, see `stock_out`).
* TIMESTAMP columns (`created_at`, `updated_at`) are not modelled: no claim
  under consideration mentions them.
-/

deriving instance DecidableEq for Except

namespace InventoryLedger

/-- Transaction kind: the `transaction_type` column, restricted by
`_record_transaction` to the two strings IN and OUT. -/
inductive TxType
  | tIn
  | tOut
deriving DecidableEq, BEq

/-- Row of the `parts` table.  The extra field `initial_stock` is a
specification ghost: it records the value the `current_stock` column was
given by the INSERT in `insert_part` and is never written afterwards; it
exists only so that the invariant of spec section 3 (initial quantity at
creation) can be stated. -/
structure Part where
  id : Nat
  part_number : String
  description : String
  category : String
  current_stock : Int
  min_stock : Int
  unit_cost : Rat
  supplier : String
  initial_stock : Int
deriving DecidableEq

/-- Row of the `transactions` table of the parts variant. -/
structure Txn where
  id : Nat
  part_id : Nat
  transaction_type : TxType
  quantity : Int
  unit_price : Rat
  reference : Option String
  notes : Option String
deriving DecidableEq

/-- The durable database state: both tables plus the AUTOINCREMENT
counters of their INTEGER PRIMARY KEY columns. -/
structure Store where
  parts : List Part
  transactions : List Txn
  nextPartId : Nat
  nextTxId : Nat
deriving DecidableEq

/-- A freshly created database (`_create_tables` on a new file): both tables
empty, first rowid to be assigned is 1. -/
def Store.empty : Store := ⟨[], [], 1, 1⟩

/-- Errors surfaced by the store.  `valueError` is Python's ValueError,
`integrityError` an uncaught sqlite3.IntegrityError, and
`operationalLocked` the sqlite3.OperationalError (message: database is
locked) that a connection receives when its write has to wait on another
connection holding the database write lock. -/
inductive DbError
  | valueError (msg : String)
  | integrityError
  | operationalLocked
deriving DecidableEq

/-- Argument dictionary of `Database.insert_part`: `none` models an absent
key, so the defaults-merge of the source can be expressed with `Option.getD`. -/
structure PartData where
  part_number : Option String
  description : Option String
  category : Option String
  current_stock : Option Int
  min_stock : Option Int
  unit_cost : Option Rat
  supplier : Option String
deriving DecidableEq

/-- Database.get_part: SELECT * FROM parts WHERE id = ? (first match). -/
def get_part (s : Store) (part_id : Nat) : Option Part :=
  s.parts.find? (fun p => p.id == part_id)

/-- Stock adjustment performed by the UPDATE statement inside
`_record_transaction`: add the quantity for IN, subtract it for OUT, on the
row whose id matches. -/
def adjustStock (part_id : Nat) (transaction_type : TxType) (quantity : Int)
    (p : Part) : Part :=
  if p.id == part_id then
    { p with current_stock :=
        match transaction_type with
        | .tIn => p.current_stock + quantity
        | .tOut => p.current_stock - quantity }
  else p

/-- Connection-local working state of `_record_transaction` after its two
statements (INSERT INTO transactions; UPDATE parts) and before the commit.
Note that the source performs no existence check on `part_id` (sqlite does
not enforce the foreign key by default), so the INSERT succeeds even for an
id with no parts row, and the UPDATE then simply matches no row. -/
def record_transaction_pending (s : Store) (part_id : Nat)
    (transaction_type : TxType) (quantity : Int) (unit_price : Rat)
    (reference notes : Option String) : Store :=
  { s with
      transactions := s.transactions ++
        [⟨s.nextTxId, part_id, transaction_type, quantity, unit_price,
          reference, notes⟩],
      parts := s.parts.map (adjustStock part_id transaction_type quantity),
      nextTxId := s.nextTxId + 1 }

/-- Database._record_transaction called on its own connection (the
`stock_in` / `stock_out` path): both statements run and the final
`conn.commit()` publishes them; the new transaction id is returned.  The
transaction-type membership check of the source is enforced here by the
`TxType` argument type. -/
def record_transaction (s : Store) (part_id : Nat)
    (transaction_type : TxType) (quantity : Int) (unit_price : Rat)
    (reference notes : Option String) : Store × Nat :=
  (record_transaction_pending s part_id transaction_type quantity unit_price
    reference notes, s.nextTxId)

/-- Database.stock_in: rejects non-positive quantities, then delegates to
`_record_transaction` with type IN. -/
def stock_in (s : Store) (part_id : Nat) (quantity : Int) (unit_price : Rat)
    (reference notes : Option String) : Except DbError (Store × Nat) :=
  if quantity ≤ 0 then
    .error (.valueError "Quantity must be greater than 0")
  else
    .ok (record_transaction s part_id .tIn quantity unit_price reference notes)

/-- Database.stock_out: rejects non-positive quantities; when `unit_price`
is omitted it reads the part at call time and uses its `unit_cost` (raising
if the part does not exist); then delegates to `_record_transaction` with
type OUT.  There is no insufficient-stock check: the UPDATE subtracts
unconditionally and `current_stock` may become negative. -/
def stock_out (s : Store) (part_id : Nat) (quantity : Int)
    (unit_price : Option Rat) (reference notes : Option String) :
    Except DbError (Store × Nat) :=
  if quantity ≤ 0 then
    .error (.valueError "Quantity must be greater than 0")
  else
    match unit_price with
    | some price =>
        .ok (record_transaction s part_id .tOut quantity price reference notes)
    | none =>
        match get_part s part_id with
        | none => .error (.valueError "Part with the given ID not found")
        | some p =>
            .ok (record_transaction s part_id .tOut quantity p.unit_cost
              reference notes)

/-- Database.insert_part.  The source checks the required key, merges the
defaults dictionary, and INSERTs the row (UNIQUE on `part_number`: an
IntegrityError is caught and re-raised as a ValueError).  When the merged
`current_stock` is positive it then calls `_record_transaction` to seed an
IN transaction — but `_record_transaction` opens a second sqlite connection
while the first connection still holds the database write lock of its
uncommitted INSERT (Python's sqlite3 module begins a transaction implicitly
on the first data-modifying statement).  The second connection's INSERT
therefore fails with sqlite3.OperationalError (database is locked) once the
busy timeout expires; that exception is not an IntegrityError, so it escapes
the handler in `insert_part`, and the outer `with conn` block rolls the part
INSERT back.  Net effect, verified against sqlite's locking semantics:
creation with a positive starting quantity always raises and persists
nothing; creation with a non-positive starting quantity commits the part
row and records no transaction. -/
def insert_part (s : Store) (d : PartData) : Except DbError (Store × Nat) :=
  if d.part_number.isNone then
    .error (.valueError "Missing required field: part_number")
  else
    let part_number := d.part_number.getD ""
    let description := d.description.getD ""
    let category := d.category.getD ""
    let current_stock := d.current_stock.getD 0
    let min_stock := d.min_stock.getD 0
    let unit_cost := d.unit_cost.getD 0
    let supplier := d.supplier.getD ""
    if s.parts.any (fun p => p.part_number == part_number) then
      .error (.valueError "Part number already exists")
    else if current_stock > 0 then
      .error .operationalLocked
    else
      .ok ({ s with
              parts := s.parts ++
                [⟨s.nextPartId, part_number, description, category,
                  current_stock, min_stock, unit_cost, supplier,
                  current_stock⟩],
              nextPartId := s.nextPartId + 1 }, s.nextPartId)

/-- One SET item of `Database.update_part`: the source builds the SET clause
from whatever keys the caller supplies, so every column of the parts table
is settable, `current_stock` included. -/
inductive Upd
  | set_part_number (v : String)
  | set_description (v : String)
  | set_category (v : String)
  | set_current_stock (v : Int)
  | set_min_stock (v : Int)
  | set_unit_cost (v : Rat)
  | set_supplier (v : String)
deriving DecidableEq

/-- Application of one SET item to a row.  The ghost field `initial_stock`
is not a column and is never written. -/
def applyUpd (p : Part) : Upd → Part
  | .set_part_number v => { p with part_number := v }
  | .set_description v => { p with description := v }
  | .set_category v => { p with category := v }
  | .set_current_stock v => { p with current_stock := v }
  | .set_min_stock v => { p with min_stock := v }
  | .set_unit_cost v => { p with unit_cost := v }
  | .set_supplier v => { p with supplier := v }

/-- Whether a SET item writes the `current_stock` column. -/
def Upd.setsStock : Upd → Bool
  | .set_current_stock _ => true
  | _ => false

/-- Database.update_part: returns False on an empty update dictionary or
when no row matches the id; otherwise applies every supplied SET item to the
matching row.  Setting `part_number` to the number of a different existing
row violates the UNIQUE constraint; `update_part` has no handler for that
IntegrityError, so it propagates and the connection rolls back. -/
def update_part (s : Store) (part_id : Nat) (update_data : List Upd) :
    Except DbError (Store × Bool) :=
  if update_data.isEmpty then
    .ok (s, false)
  else
    match s.parts.find? (fun p => p.id == part_id) with
    | none => .ok (s, false)
    | some p =>
        let p' := update_data.foldl applyUpd p
        if s.parts.any (fun q => q.id != part_id &&
            q.part_number == p'.part_number) then
          .error .integrityError
        else
          .ok ({ s with
                  parts := s.parts.map (fun q =>
                    if q.id == part_id then update_data.foldl applyUpd q
                    else q) }, true)

/-- Database.delete_part: on one connection, DELETE the part's transactions,
then DELETE the part, commit, and report whether the second DELETE removed a
row. -/
def delete_part (s : Store) (part_id : Nat) : Store × Bool :=
  ({ s with
      transactions := s.transactions.filter (fun t => t.part_id != part_id),
      parts := s.parts.filter (fun p => p.id != part_id) },
   s.parts.any (fun p => p.id == part_id))

/-
Crash model for the compound operations.  Each list below holds the durable
(on-disk, committed) state of the database at every point where the process
could die during the operation, in program order: a statement executed on an
open connection is journalled but not durable until `conn.commit()`, and a
crash discards everything uncommitted.
-/

/-- Durable snapshots of `_record_transaction` run on its own connection:
after the INSERT INTO transactions (uncommitted), after the UPDATE parts
(uncommitted), and after the commit. -/
def record_transaction_snapshots (s : Store) (part_id : Nat)
    (transaction_type : TxType) (quantity : Int) (unit_price : Rat)
    (reference notes : Option String) : List Store :=
  [s, s,
   record_transaction_pending s part_id transaction_type quantity unit_price
     reference notes]

/-- Durable snapshots of `delete_part`: after the DELETE of the
transactions (uncommitted), after the DELETE of the part (uncommitted), and
after the commit. -/
def delete_part_snapshots (s : Store) (part_id : Nat) : List Store :=
  [s, s,
   { s with
      transactions := s.transactions.filter (fun t => t.part_id != part_id),
      parts := s.parts.filter (fun p => p.id != part_id) }]

/-- Durable snapshots of `insert_part`, following the source paths: the
validation error raises before any statement; a duplicate part number makes
the INSERT raise and the connection roll back; with a positive starting
quantity the INSERT is journalled, the nested `_record_transaction` fails on
the database write lock, and both connections roll back; otherwise the
single commit publishes the new row. -/
def insert_part_snapshots (s : Store) (d : PartData) : List Store :=
  if d.part_number.isNone then [s]
  else
    let part_number := d.part_number.getD ""
    let description := d.description.getD ""
    let category := d.category.getD ""
    let current_stock := d.current_stock.getD 0
    let min_stock := d.min_stock.getD 0
    let unit_cost := d.unit_cost.getD 0
    let supplier := d.supplier.getD ""
    if s.parts.any (fun p => p.part_number == part_number) then [s, s]
    else if current_stock > 0 then [s, s, s]
    else
      [s,
       { s with
          parts := s.parts ++
            [⟨s.nextPartId, part_number, description, category, current_stock,
              min_stock, unit_cost, supplier, current_stock⟩],
          nextPartId := s.nextPartId + 1 }]

/-
Ledger operation sequences, for the history invariant of spec section 3.
-/

/-- One ledger mutation, as enumerated by the invariant claim: item creation
with an optional starting quantity, stock in, stock out. -/
inductive LedgerOp
  | create (d : PartData)
  | stockIn (part_id : Nat) (quantity : Int) (unit_price : Rat)
      (reference notes : Option String)
  | stockOut (part_id : Nat) (quantity : Int) (unit_price : Option Rat)
      (reference notes : Option String)
deriving DecidableEq

/-- Effect of one ledger operation on the durable state; an operation that
raises leaves the durable state unchanged (the connection rolls back). -/
def applyOp (s : Store) : LedgerOp → Store
  | .create d =>
      match insert_part s d with
      | .ok (s', _) => s'
      | .error _ => s
  | .stockIn part_id quantity unit_price reference notes =>
      match stock_in s part_id quantity unit_price reference notes with
      | .ok (s', _) => s'
      | .error _ => s
  | .stockOut part_id quantity unit_price reference notes =>
      match stock_out s part_id quantity unit_price reference notes with
      | .ok (s', _) => s'
      | .error _ => s

/-- Effect of a sequence of ledger operations, first to last. -/
def applyOps (s : Store) (ops : List LedgerOp) : Store :=
  ops.foldl applyOp s

/-- Whether an operation's target item exists at call time.  The store never
checks this itself: `stock_in`, and `stock_out` with an explicit price,
happily insert a transaction for an id with no parts row. -/
def opTargetsExisting (s : Store) : LedgerOp → Bool
  | .create _ => true
  | .stockIn part_id _ _ _ _ => s.parts.any (fun p => p.id == part_id)
  | .stockOut part_id _ _ _ _ => s.parts.any (fun p => p.id == part_id)

/-- A sequence of ledger operations each of whose stock movements targets an
item existing when the operation runs. -/
def validOps (s : Store) : List LedgerOp → Bool
  | [] => true
  | op :: rest => opTargetsExisting s op && validOps (applyOp s op) rest

/-- Signed transaction total: sum of the quantities of the transactions of
the given kind referencing the given part id. -/
def txTotal (txs : List Txn) (part_id : Nat) (ty : TxType) : Int :=
  ((txs.filter (fun t => t.part_id == part_id &&
      t.transaction_type == ty)).map (·.quantity)).sum

/-- The ledger invariant of spec section 3: every item's cached quantity
equals its quantity at creation plus the IN total minus the OUT total over
the transactions referencing it. -/
def LedgerInvariant (s : Store) : Prop :=
  ∀ p ∈ s.parts,
    p.current_stock =
      p.initial_stock + txTotal s.transactions p.id .tIn -
        txTotal s.transactions p.id .tOut

instance (s : Store) : Decidable (LedgerInvariant s) := by
  unfold LedgerInvariant; infer_instance

/-- Quantity column of every item row, in table order. -/
def storeQuantities (s : Store) : List Int :=
  s.parts.map (·.current_stock)

/-
Stock-status classification.  `ProductView._get_status`
(views/product_view.py) and the inventory report of
`ReportGenerator.generate_inventory_report` (report_generator.py) use the
same rule.
-/

/-- The three status strings of the source. -/
inductive StockStatus
  | outOfStock
  | lowStock
  | inStock
deriving DecidableEq

/-- Classification rule shared by `_get_status` and the inventory report:
non-positive quantity is out of stock, quantity at or below the minimum is
low stock, anything else is in stock. -/
def stockStatus (quantity min_quantity : Int) : StockStatus :=
  if quantity ≤ 0 then .outOfStock
  else if quantity ≤ min_quantity then .lowStock
  else .inStock

/-
Products variant (models/product.py, models/transaction.py): the claims need
the Transaction constructor and the two stock methods of Product.
-/

/-- Products-variant product record (the fields the stock methods use). -/
structure Product where
  id : Option Nat
  name : String
  quantity : Int
  min_quantity : Int
  price : Rat
  cost : Rat
deriving DecidableEq

/-- Keyword arguments of `Transaction.__init__`: `none` models an absent
key. -/
structure TransactionKwargs where
  product_id : Option Nat
  transaction_type : Option String
  quantity : Option Int
  unit_price : Option Rat
  total_price : Option Rat
  notes : Option String
deriving DecidableEq

/-- Products-variant transaction record as built by the constructor. -/
structure PTransaction where
  product_id : Option Nat
  transaction_type : Option String
  quantity : Int
  unit_price : Rat
  total_price : Rat
  notes : Option String
deriving DecidableEq

/-- Transaction.__init__: defaults quantity, unit_price and total_price to
zero, then, when `total_price` was not passed but both `unit_price` and
`quantity` were, derives `total_price` as unit_price times quantity. -/
def mkTransaction (kw : TransactionKwargs) : PTransaction :=
  { product_id := kw.product_id
    transaction_type := kw.transaction_type
    quantity := kw.quantity.getD 0
    unit_price := kw.unit_price.getD 0
    total_price :=
      match kw.total_price with
      | some t => t
      | none =>
          match kw.unit_price, kw.quantity with
          | some price, some q => price * (q : Rat)
          | _, _ => 0
    notes := kw.notes }

/-- Product.add_stock: rejects non-positive quantities, increments the
cached quantity, and records an IN transaction passing
`total_price = quantity * unit_price` explicitly. -/
def Product.add_stock (self : Product) (quantity : Int) (unit_price : Rat)
    (notes : Option String) : Except String (Product × PTransaction) :=
  if quantity ≤ 0 then
    .error "Quantity must be greater than 0"
  else
    .ok ({ self with quantity := self.quantity + quantity },
      mkTransaction
        ⟨self.id, some "IN", some quantity, some unit_price,
         some ((quantity : Rat) * unit_price), notes⟩)

/-- Product.remove_stock: rejects non-positive quantities and quantities
above the cached stock, decrements the cached quantity, and records an OUT
transaction (with `total_price = quantity * unit_price` passed explicitly)
only when a unit price was supplied. -/
def Product.remove_stock (self : Product) (quantity : Int)
    (unit_price : Option Rat) (notes : Option String) :
    Except String (Product × Option PTransaction) :=
  if quantity ≤ 0 then
    .error "Quantity must be greater than 0"
  else if self.quantity < quantity then
    .error "Insufficient stock"
  else
    let self' := { self with quantity := self.quantity - quantity }
    match unit_price with
    | some price =>
        .ok (self',
          some (mkTransaction
            ⟨self.id, some "OUT", some quantity, some price,
             some ((quantity : Rat) * price), notes⟩))
    | none => .ok (self', none)

/-
Theorems.
-/

/-- C9: the stock-status classification is exactly: out of stock iff the
quantity is at most zero, low stock iff the quantity is positive and at most
the minimum, in stock otherwise; in particular a positive quantity equal to
the minimum is low stock and a quantity one above a non-negative minimum is
in stock. -/
theorem stockStatus_classification (q m : Int) :
    (stockStatus q m = .outOfStock ↔ q ≤ 0) ∧
    (stockStatus q m = .lowStock ↔ 0 < q ∧ q ≤ m) ∧
    (stockStatus q m = .inStock ↔ 0 < q ∧ m < q) ∧
    (0 < m → stockStatus m m = .lowStock) ∧
    (0 ≤ m → stockStatus (m + 1) m = .inStock) := by
  refine ⟨?_, ?_, ?_, ?_, ?_⟩ <;> unfold stockStatus <;>
    (repeat' split) <;> simp_all <;> omega

/-- C5: evaluation at the failing input.  Creating an item with starting
quantity 5 does not record a seeded IN transaction: the nested
`_record_transaction` call deadlocks against the write lock of the
uncommitted part INSERT, so `insert_part` raises and nothing persists, while
creating an item with starting quantity 0 succeeds and records no
transaction. -/
theorem insert_part_initial_stock_bug :
    insert_part Store.empty
      ⟨some "RES-1K", some "1K Ohm Resistor", none, some 5, none,
       some (1 / 10), none⟩ = .error .operationalLocked ∧
    applyOps Store.empty
      [.create ⟨some "RES-1K", some "1K Ohm Resistor", none, some 5, none,
        some (1 / 10), none⟩] = Store.empty ∧
    insert_part Store.empty ⟨some "RES-0", none, none, some 0, none, none, none⟩ =
      .ok (⟨[⟨1, "RES-0", "", "", 0, 0, 0, "", 0⟩], [], 2, 1⟩, 1) := by
  decide

/-- C10: every transaction built by the products-variant stock operations
carries total price equal to quantity times unit price (both methods pass
the product explicitly), and the Transaction constructor derives the total
as unit price times quantity whenever quantity and unit price are supplied
without an explicit total. -/
theorem transaction_total_price (p : Product) (q : Int) (price : Rat)
    (priceO : Option Rat) (notes : Option String) (kw : TransactionKwargs)
    (q0 : Int) (price0 : Rat) :
    (∀ p' t, p.add_stock q price notes = .ok (p', t) →
      t.total_price = (t.quantity : Rat) * t.unit_price) ∧
    (∀ p' t, p.remove_stock q priceO notes = .ok (p', some t) →
      t.total_price = (t.quantity : Rat) * t.unit_price) ∧
    (kw.total_price = none → kw.quantity = some q0 →
      kw.unit_price = some price0 →
      (mkTransaction kw).total_price = price0 * (q0 : Rat)) := by
  refine ⟨?_, ?_, ?_⟩
  · intro p' t h
    unfold Product.add_stock at h
    split at h
    · exact absurd h (by simp)
    · simp only [Except.ok.injEq, Prod.mk.injEq] at h
      obtain ⟨-, rfl⟩ := h
      simp [mkTransaction, mul_comm]
  · intro p' t h
    unfold Product.remove_stock at h
    split at h
    · exact absurd h (by simp)
    · split at h
      · exact absurd h (by simp)
      · split at h
        · simp only [Except.ok.injEq, Prod.mk.injEq, Option.some.injEq] at h
          obtain ⟨-, rfl⟩ := h
          simp [mkTransaction, mul_comm]
        · simp at h
  · intro h1 h2 h3
    simp [mkTransaction, h1, h2, h3]

/-- Witness for C10 at a concrete call: adding 4 units at unit price 5/2 to
a product records total price 10, which is the quantity times the unit
price. -/
theorem transaction_total_price_witness :
    (mkTransaction ⟨some 1, some "IN", some 4, some ((5 : Rat) / 2),
        some ((4 : Rat) * (5 / 2)), none⟩).total_price =
      ((4 : Rat)) * (5 / 2) :=
  (transaction_total_price ⟨some 1, "W", 10, 2, 5, 3⟩ 4 (5 / 2) none none
      ⟨none, none, none, none, none, none⟩ 0 0).1
    ⟨some 1, "W", 14, 2, 5, 3⟩ _ rfl

/-- C7: deleting an item removes the item row and every transaction
referencing it in the same unit, and returns whether an item row was
removed: the returned flag is true exactly when the id existed, a second
delete of the same id returns false, and afterwards no transaction and no
item row for that id remains (a non-existent id just returns false, the
operation cannot fail). -/
theorem delete_part_cascades_and_idempotent (s : Store) (part_id : Nat) :
    ((delete_part s part_id).2 = true ↔ ∃ p ∈ s.parts, p.id = part_id) ∧
    (delete_part (delete_part s part_id).1 part_id).2 = false ∧
    (delete_part s part_id).1.transactions.filter
      (fun t => t.part_id == part_id) = [] ∧
    (delete_part s part_id).1.parts.filter
      (fun p => p.id == part_id) = [] := by
  refine ⟨?_, ?_, ?_, ?_⟩
  · simp [delete_part, List.any_eq_true]
  · simp only [delete_part, List.any_eq_false]
    intro p hp
    simp only [List.mem_filter] at hp
    simpa using hp.2
  · simp only [delete_part, List.filter_eq_nil_iff]
    intro t ht
    simp only [List.mem_filter] at ht
    simpa using ht.2
  · simp only [delete_part, List.filter_eq_nil_iff]
    intro p hp
    simp only [List.mem_filter] at hp
    simpa using hp.2

/-- Helper: the stock adjustment of `_record_transaction` does not change
row ids. -/
theorem adjustStock_id (part_id : Nat) (ty : TxType) (q : Int) (p : Part) :
    (adjustStock part_id ty q p).id = p.id := by
  unfold adjustStock; split <;> rfl

/-- Helper: looking an id up after the stock adjustment finds the adjusted
version of whatever row the lookup found before. -/
theorem find?_map_adjustStock (l : List Part) (part_id n : Nat) (ty : TxType)
    (q : Int) :
    (l.map (adjustStock part_id ty q)).find? (fun p => p.id == n) =
      (l.find? (fun p => p.id == n)).map (adjustStock part_id ty q) := by
  induction l with
  | nil => rfl
  | cons a t ih =>
      simp only [List.map_cons, List.find?_cons, adjustStock_id]
      cases h : (a.id == n) with
      | true => rfl
      | false => exact ih

/-- C4: stock_out on an existing item succeeds for every positive quantity,
with no insufficient-stock rejection; the cached quantity becomes the old
quantity minus the requested one, hence negative whenever the request
exceeds the stock.  This holds both with an explicit unit price and with the
defaulted one. -/
theorem stock_out_permits_overdraft (s : Store) (part_id : Nat) (p : Part)
    (q : Int) (price : Rat) (reference notes : Option String)
    (hp : get_part s part_id = some p) (hq : 0 < q) :
    (∃ s', stock_out s part_id q (some price) reference notes =
        .ok (s', s.nextTxId) ∧
      get_part s' part_id =
        some { p with current_stock := p.current_stock - q }) ∧
    (∃ s', stock_out s part_id q none reference notes =
        .ok (s', s.nextTxId) ∧
      get_part s' part_id =
        some { p with current_stock := p.current_stock - q }) := by
  have hid : (p.id == part_id) = true := by
    unfold get_part at hp
    have h2 := List.find?_some hp
    simpa using h2
  have hfind :
      ∀ pr : Rat,
        get_part (record_transaction s part_id .tOut q pr reference notes).1
            part_id =
          some { p with current_stock := p.current_stock - q } := by
    intro pr
    unfold get_part at hp ⊢
    unfold record_transaction record_transaction_pending
    simp only [find?_map_adjustStock]
    rw [hp]
    show some (adjustStock part_id .tOut q p) = _
    unfold adjustStock
    rw [if_pos hid]
  constructor
  · refine ⟨record_transaction_pending s part_id .tOut q price reference
      notes, ?_, hfind price⟩
    unfold stock_out
    rw [if_neg (by omega)]
    rfl
  · refine ⟨record_transaction_pending s part_id .tOut q p.unit_cost
      reference notes, ?_, hfind p.unit_cost⟩
    unfold stock_out
    rw [if_neg (by omega), hp]
    rfl

/-- Witness for C4: a part with 3 units in stock, stock_out of 5 units
succeeds and leaves a cached quantity of minus 2. -/
theorem stock_out_permits_overdraft_witness :
    ∃ s', stock_out ⟨[⟨1, "P", "", "", 3, 0, 1, "", 3⟩], [], 2, 1⟩ 1 5
        (some 1) none none = .ok (s', 1) ∧
      get_part s' 1 = some ⟨1, "P", "", "", -2, 0, 1, "", 3⟩ :=
  (stock_out_permits_overdraft ⟨[⟨1, "P", "", "", 3, 0, 1, "", 3⟩], [], 2, 1⟩
      1 ⟨1, "P", "", "", 3, 0, 1, "", 3⟩ 5 1 none none (by decide)
      (by decide)).1

/-- C6: stock_out on an existing item with the unit price omitted records an
OUT transaction whose unit price is the item's unit_cost as read at call
time; with a supplied unit price the recorded transaction carries the
supplied value. -/
theorem stock_out_unit_price_default (s : Store) (part_id : Nat) (p : Part)
    (q : Int) (price : Rat) (reference notes : Option String)
    (hp : get_part s part_id = some p) (hq : 0 < q) :
    (∃ s', stock_out s part_id q none reference notes =
        .ok (s', s.nextTxId) ∧
      s'.transactions = s.transactions ++
        [⟨s.nextTxId, part_id, .tOut, q, p.unit_cost, reference, notes⟩]) ∧
    (∃ s', stock_out s part_id q (some price) reference notes =
        .ok (s', s.nextTxId) ∧
      s'.transactions = s.transactions ++
        [⟨s.nextTxId, part_id, .tOut, q, price, reference, notes⟩]) := by
  constructor
  · refine ⟨record_transaction_pending s part_id .tOut q p.unit_cost
      reference notes, ?_, rfl⟩
    unfold stock_out
    rw [if_neg (by omega), hp]
    rfl
  · refine ⟨record_transaction_pending s part_id .tOut q price reference
      notes, ?_, rfl⟩
    unfold stock_out
    rw [if_neg (by omega)]
    rfl

/-- Witness for C6: on an item with unit_cost 3, stock_out with the price
omitted records unit price 3, and with price 7 records 7. -/
theorem stock_out_unit_price_default_witness :
    (∃ s', stock_out ⟨[⟨1, "P", "", "", 9, 0, 3, "", 9⟩], [], 2, 1⟩ 1 2
        none none none = .ok (s', 1) ∧
      s'.transactions = [⟨1, 1, .tOut, 2, 3, none, none⟩]) ∧
    (∃ s', stock_out ⟨[⟨1, "P", "", "", 9, 0, 3, "", 9⟩], [], 2, 1⟩ 1 2
        (some 7) none none = .ok (s', 1) ∧
      s'.transactions = [⟨1, 1, .tOut, 2, 7, none, none⟩]) :=
  stock_out_unit_price_default ⟨[⟨1, "P", "", "", 9, 0, 3, "", 9⟩], [], 2, 1⟩
    1 ⟨1, "P", "", "", 9, 0, 3, "", 9⟩ 2 7 none none (by decide) (by decide)

end InventoryLedger

namespace InventoryLedger

/-- C3: every durable snapshot reachable by crashing inside a compound
mutation is either the pre-operation state or the fully applied
post-operation state — never a mixed state.  This covers the transaction
insert plus quantity update of `_record_transaction`, the part insert plus
seeded transaction of `insert_part` (whose post state on the seeded path is
the pre state, since the operation fails, compare C5), and the two cascading
deletes of `delete_part`. -/
theorem compound_mutations_atomic (s : Store) (d : PartData) (part_id : Nat)
    (ty : TxType) (q : Int) (price : Rat) (reference notes : Option String)
    (st : Store) :
    (st ∈ record_transaction_snapshots s part_id ty q price reference notes →
      st = s ∨ st = (record_transaction s part_id ty q price reference
        notes).1) ∧
    (st ∈ insert_part_snapshots s d → st = s ∨ st = applyOp s (.create d)) ∧
    (st ∈ delete_part_snapshots s part_id →
      st = s ∨ st = (delete_part s part_id).1) := by
  refine ⟨?_, ?_, ?_⟩
  · intro h
    simp only [record_transaction_snapshots, List.mem_cons,
      List.not_mem_nil, or_false] at h
    rcases h with h | h | h
    · exact Or.inl h
    · exact Or.inl h
    · exact Or.inr h
  · intro h
    unfold insert_part_snapshots at h
    unfold applyOp insert_part
    split at h
    · simp only [List.mem_cons, List.not_mem_nil, or_false] at h
      rw [h]
      simp [*]
    · dsimp only at h ⊢
      split at h
      · simp only [List.mem_cons, List.not_mem_nil, or_false] at h
        rcases h with h | h <;> rw [h] <;> simp [*]
      · split at h
        · simp only [List.mem_cons, List.not_mem_nil, or_false] at h
          rcases h with h | h | h <;> rw [h] <;> simp [*]
        · simp only [List.mem_cons, List.not_mem_nil, or_false] at h
          rcases h with h | h
          · exact Or.inl h
          · rw [h]
            simp [*]
  · intro h
    simp only [delete_part_snapshots, List.mem_cons, List.not_mem_nil,
      or_false] at h
    rcases h with h | h | h
    · exact Or.inl h
    · exact Or.inl h
    · exact Or.inr h

/-- Witness for C3: concrete crash points inside the three compound
operations on a one-part store, each leaving the pre- or post-state. -/
theorem compound_mutations_atomic_witness :
    (⟨[⟨1, "P", "", "", 0, 0, 1, "", 0⟩], [], 2, 1⟩ : Store) = Store.empty ∨
      (⟨[⟨1, "P", "", "", 0, 0, 1, "", 0⟩], [], 2, 1⟩ : Store) =
        applyOp Store.empty
          (.create ⟨some "P", none, none, none, none, some 1, none⟩) :=
  (compound_mutations_atomic Store.empty
      ⟨some "P", none, none, none, none, some 1, none⟩ 1 .tIn 1 1 none none
      ⟨[⟨1, "P", "", "", 0, 0, 1, "", 0⟩], [], 2, 1⟩).2.1 (by decide)

end InventoryLedger

namespace InventoryLedger

/-- Helper: a fold of SET items none of which writes `current_stock` leaves
the row's `current_stock` unchanged. -/
theorem foldl_applyUpd_stock (upds : List Upd) (p : Part)
    (h : upds.all (fun u => !u.setsStock) = true) :
    (upds.foldl applyUpd p).current_stock = p.current_stock := by
  induction upds generalizing p with
  | nil => rfl
  | cons u rest ih =>
      rw [List.all_cons, Bool.and_eq_true] at h
      rw [List.foldl_cons, ih _ h.2]
      cases u <;> simp_all [applyUpd, Upd.setsStock]

/-- C2 (amended): an update whose SET items do not include the
`current_stock` column leaves every item's cached quantity unchanged,
whether it succeeds, matches no row, or fails on the UNIQUE constraint.
(The unamended claim is false: `update_part` builds its SET clause from
whatever keys the caller supplies, so it can set `current_stock` directly —
see the counterexample.) -/
theorem update_part_preserves_quantity (s : Store) (part_id : Nat)
    (update_data : List Upd) (s' : Store) (b : Bool)
    (h : update_data.all (fun u => !u.setsStock) = true)
    (hok : update_part s part_id update_data = .ok (s', b)) :
    storeQuantities s' = storeQuantities s := by
  unfold update_part at hok
  split at hok
  · simp only [Except.ok.injEq, Prod.mk.injEq] at hok
    rw [← hok.1]
  · split at hok
    · simp only [Except.ok.injEq, Prod.mk.injEq] at hok
      rw [← hok.1]
    · dsimp only at hok
      split at hok
      · exact absurd hok (by simp)
      · simp only [Except.ok.injEq, Prod.mk.injEq] at hok
        rw [← hok.1]
        unfold storeQuantities
        simp only [List.map_map]
        refine List.map_congr_left ?_
        intro a _
        simp only [Function.comp_apply]
        split
        · exact foldl_applyUpd_stock update_data a h
        · rfl

/-- Witness for C2 (amended): updating description and minimum stock of a
part leaves its quantity 5 unchanged. -/
theorem update_part_preserves_quantity_witness :
    storeQuantities
      (⟨[⟨1, "P-1", "x", "", 5, 7, 0, "", 5⟩], [], 2, 1⟩ : Store) =
      storeQuantities ⟨[⟨1, "P-1", "", "", 5, 0, 0, "", 5⟩], [], 2, 1⟩ :=
  update_part_preserves_quantity ⟨[⟨1, "P-1", "", "", 5, 0, 0, "", 5⟩], [], 2, 1⟩
    1 [.set_description "x", .set_min_stock 7]
    ⟨[⟨1, "P-1", "x", "", 5, 7, 0, "", 5⟩], [], 2, 1⟩ true (by decide)
    (by decide)

/-- Counterexample to C2 as stated: `update_part` accepts a
`current_stock` key and overwrites the cached quantity with it (here 5
becomes 99), so the metadata-update operation can change an item's quantity
and transaction recording is not the only quantity-changing path. -/
theorem update_part_can_set_quantity :
    (update_part ⟨[⟨1, "P-1", "", "", 5, 0, 0, "", 5⟩], [], 2, 1⟩ 1
        [.set_current_stock 99]).map (fun r => storeQuantities r.1) =
      .ok [99] := by
  decide

end InventoryLedger

namespace InventoryLedger

/-- Every recorded transaction has a strictly positive quantity. -/
def txQuantitiesPositive (s : Store) : Prop :=
  ∀ t ∈ s.transactions, 0 < t.quantity

instance (s : Store) : Decidable (txQuantitiesPositive s) := by
  unfold txQuantitiesPositive; infer_instance

/-- Helper: a successful insert_part records no transaction (the seeded
path never commits, see `insert_part`). -/
theorem insert_part_transactions (s : Store) (d : PartData) (s' : Store)
    (n : Nat) (hok : insert_part s d = .ok (s', n)) :
    s'.transactions = s.transactions := by
  unfold insert_part at hok
  split at hok
  · exact absurd hok (by simp)
  · dsimp only at hok
    split at hok
    · exact absurd hok (by simp)
    · split at hok
      · exact absurd hok (by simp)
      · simp only [Except.ok.injEq, Prod.mk.injEq] at hok
        rw [← hok.1]

/-- Helper: recording a transaction of positive quantity preserves
positivity of all recorded quantities. -/
theorem record_transaction_txPositive (s : Store) (part_id : Nat)
    (ty : TxType) (q : Int) (price : Rat) (reference notes : Option String)
    (h : txQuantitiesPositive s) (hq : 0 < q) :
    txQuantitiesPositive
      (record_transaction s part_id ty q price reference notes).1 := by
  intro t ht
  simp only [record_transaction, record_transaction_pending,
    List.mem_append, List.mem_singleton] at ht
  rcases ht with ht | rfl
  · exact h t ht
  · exact hq

/-- Helper: every single ledger operation preserves positivity of all
recorded transaction quantities. -/
theorem applyOp_txPositive (s : Store) (op : LedgerOp)
    (h : txQuantitiesPositive s) : txQuantitiesPositive (applyOp s op) := by
  cases op with
  | create d =>
      simp only [applyOp]
      split
      · rename_i s' n hres
        intro t ht
        rw [insert_part_transactions s d s' n hres] at ht
        exact h t ht
      · exact h
  | stockIn part_id q price reference notes =>
      simp only [applyOp]
      split
      · rename_i s' n hres
        unfold stock_in at hres
        split at hres
        · exact absurd hres (by simp)
        · rename_i hq
          simp only [Except.ok.injEq] at hres
          have hp := record_transaction_txPositive s part_id .tIn q price
            reference notes h (by omega)
          rw [hres] at hp
          exact hp
      · exact h
  | stockOut part_id q price reference notes =>
      simp only [applyOp]
      split
      · rename_i s' n hres
        unfold stock_out at hres
        split at hres
        · exact absurd hres (by simp)
        · rename_i hq
          split at hres
          · rename_i pr
            simp only [Except.ok.injEq] at hres
            have hp := record_transaction_txPositive s part_id .tOut q pr
              reference notes h (by omega)
            rw [hres] at hp
            exact hp
          · split at hres
            · exact absurd hres (by simp)
            · rename_i pt heq
              simp only [Except.ok.injEq] at hres
              have hp := record_transaction_txPositive s part_id .tOut q
                pt.unit_cost reference notes h (by omega)
              rw [hres] at hp
              exact hp
      · exact h

/-- Helper: positivity of recorded quantities over whole operation
sequences. -/
theorem applyOps_txPositive (ops : List LedgerOp) (s : Store)
    (h : txQuantitiesPositive s) : txQuantitiesPositive (applyOps s ops) := by
  induction ops generalizing s with
  | nil => exact h
  | cons op rest ih => exact ih _ (applyOp_txPositive s op h)

/-- C8: a non-positive quantity makes stock_in and stock_out fail with the
invalid-quantity ValueError before any state change; a positive quantity on
an existing item always succeeds; and along any sequence of ledger
operations no transaction with a non-positive quantity is ever recorded. -/
theorem stock_quantity_validated (s : Store) (part_id : Nat) (q : Int)
    (price : Rat) (reference notes : Option String) (ops : List LedgerOp) :
    (q ≤ 0 →
      stock_in s part_id q price reference notes =
        .error (.valueError "Quantity must be greater than 0") ∧
      stock_out s part_id q (some price) reference notes =
        .error (.valueError "Quantity must be greater than 0") ∧
      stock_out s part_id q none reference notes =
        .error (.valueError "Quantity must be greater than 0")) ∧
    (0 < q → ∀ p, get_part s part_id = some p →
      (∃ r, stock_in s part_id q price reference notes = .ok r) ∧
      (∃ r, stock_out s part_id q none reference notes = .ok r) ∧
      (∃ r, stock_out s part_id q (some price) reference notes = .ok r)) ∧
    (txQuantitiesPositive s → txQuantitiesPositive (applyOps s ops)) := by
  refine ⟨?_, ?_, fun h => applyOps_txPositive ops s h⟩
  · intro hq
    refine ⟨?_, ?_, ?_⟩
    · unfold stock_in
      rw [if_pos hq]
    · unfold stock_out
      rw [if_pos hq]
    · unfold stock_out
      rw [if_pos hq]
  · intro hq p hp
    refine
      ⟨⟨record_transaction s part_id .tIn q price reference notes, ?_⟩,
       ⟨record_transaction s part_id .tOut q p.unit_cost reference notes, ?_⟩,
       ⟨record_transaction s part_id .tOut q price reference notes, ?_⟩⟩
    · unfold stock_in
      rw [if_neg (by omega)]
    · unfold stock_out
      rw [if_neg (by omega), hp]
    · unfold stock_out
      rw [if_neg (by omega)]

/-- Witness for C8: concrete rejections of quantity 0 and a concrete
successful movement of quantity 5 on an existing item, with positivity of
recorded quantities checked over a concrete run. -/
theorem stock_quantity_validated_witness :
    (stock_in Store.empty 1 0 1 none none =
      .error (.valueError "Quantity must be greater than 0")) ∧
    (∃ r, stock_in ⟨[⟨1, "P", "", "", 0, 0, 1, "", 0⟩], [], 2, 1⟩ 1 5 1
      none none = .ok r) ∧
    txQuantitiesPositive
      (applyOps ⟨[⟨1, "P", "", "", 0, 0, 1, "", 0⟩], [], 2, 1⟩
        [.stockIn 1 5 1 none none, .stockOut 1 2 none none none]) :=
  ⟨((stock_quantity_validated Store.empty 1 0 1 none none []).1
      (by decide)).1,
   (((stock_quantity_validated ⟨[⟨1, "P", "", "", 0, 0, 1, "", 0⟩], [], 2, 1⟩
      1 5 1 none none []).2.1 (by decide) ⟨1, "P", "", "", 0, 0, 1, "", 0⟩
      (by decide))).1,
   (stock_quantity_validated ⟨[⟨1, "P", "", "", 0, 0, 1, "", 0⟩], [], 2, 1⟩
      1 5 1 none none
      [.stockIn 1 5 1 none none, .stockOut 1 2 none none none]).2.2
      (by decide)⟩

end InventoryLedger

namespace InventoryLedger

/-- Every item row's id is below the AUTOINCREMENT counter. -/
def partIdsBounded (s : Store) : Prop :=
  ∀ p ∈ s.parts, p.id < s.nextPartId

/-- Every transaction references an existing item row. -/
def txsReferToParts (s : Store) : Prop :=
  ∀ t ∈ s.transactions, ∃ p ∈ s.parts, p.id = t.part_id

/-- Combined well-formedness: the strengthened induction hypothesis behind
the ledger invariant. -/
def StoreWF (s : Store) : Prop :=
  partIdsBounded s ∧ txsReferToParts s ∧ LedgerInvariant s

/-- Helper: appending one transaction adds its quantity to the matching
signed total and leaves the other totals unchanged. -/
theorem txTotal_append (txs : List Txn) (t : Txn) (part_id : Nat)
    (ty : TxType) :
    txTotal (txs ++ [t]) part_id ty =
      txTotal txs part_id ty +
        (if t.part_id == part_id && t.transaction_type == ty then t.quantity
         else 0) := by
  unfold txTotal
  rw [List.filter_append, List.map_append, List.sum_append]
  by_cases hc : (t.part_id == part_id && t.transaction_type == ty) = true
  · simp [List.filter_cons, hc]
  · simp [List.filter_cons, hc]

/-- Helper: an id referenced by no transaction has zero totals. -/
theorem txTotal_not_referenced (txs : List Txn) (part_id : Nat) (ty : TxType)
    (h : ∀ t ∈ txs, t.part_id ≠ part_id) : txTotal txs part_id ty = 0 := by
  unfold txTotal
  have hf : txs.filter
      (fun t => t.part_id == part_id && t.transaction_type == ty) = [] := by
    rw [List.filter_eq_nil_iff]
    intro t ht
    simp [h t ht]
  rw [hf]
  rfl

/-- Helper: computation rules for the derived Boolean equality on
transaction kinds. -/
theorem tIn_beq_tIn : (TxType.tIn == TxType.tIn) = true := rfl

/-- Helper: IN and OUT are different kinds. -/
theorem tIn_beq_tOut : (TxType.tIn == TxType.tOut) = false := rfl

/-- Helper: OUT and IN are different kinds. -/
theorem tOut_beq_tIn : (TxType.tOut == TxType.tIn) = false := rfl

/-- Helper: OUT equals OUT. -/
theorem tOut_beq_tOut : (TxType.tOut == TxType.tOut) = true := rfl

/-- Helper: recording a transaction for an existing item preserves
well-formedness, in particular the ledger invariant. -/
theorem record_transaction_WF (s : Store) (part_id : Nat) (ty : TxType)
    (q : Int) (price : Rat) (reference notes : Option String)
    (hw : StoreWF s) (hex : ∃ p ∈ s.parts, p.id = part_id) :
    StoreWF (record_transaction s part_id ty q price reference notes).1 := by
  obtain ⟨hb, hr, hi⟩ := hw
  refine ⟨?_, ?_, ?_⟩
  · intro p hp
    simp only [record_transaction, record_transaction_pending,
      List.mem_map] at hp
    obtain ⟨p0, hp0, rfl⟩ := hp
    show (adjustStock part_id ty q p0).id < s.nextPartId
    rw [adjustStock_id]
    exact hb p0 hp0
  · intro t ht
    simp only [record_transaction, record_transaction_pending,
      List.mem_append, List.mem_singleton] at ht
    rcases ht with ht | rfl
    · obtain ⟨p0, hp0, hpid⟩ := hr t ht
      exact ⟨adjustStock part_id ty q p0, List.mem_map_of_mem _ hp0,
        by rw [adjustStock_id]; exact hpid⟩
    · obtain ⟨p0, hp0, hpid⟩ := hex
      exact ⟨adjustStock part_id ty q p0, List.mem_map_of_mem _ hp0,
        by rw [adjustStock_id]; exact hpid⟩
  · intro p hp
    simp only [record_transaction, record_transaction_pending,
      List.mem_map] at hp
    obtain ⟨p0, hp0, rfl⟩ := hp
    have hinv := hi p0 hp0
    show (adjustStock part_id ty q p0).current_stock =
      (adjustStock part_id ty q p0).initial_stock +
        txTotal (s.transactions ++
          [⟨s.nextTxId, part_id, ty, q, price, reference, notes⟩])
          (adjustStock part_id ty q p0).id .tIn -
        txTotal (s.transactions ++
          [⟨s.nextTxId, part_id, ty, q, price, reference, notes⟩])
          (adjustStock part_id ty q p0).id .tOut
    rw [adjustStock_id, txTotal_append, txTotal_append]
    by_cases hid : (p0.id == part_id) = true
    · have hpid : p0.id = part_id := by simpa using hid
      subst hpid
      unfold adjustStock
      rw [if_pos (by simp)]
      cases ty <;>
        simp [tIn_beq_tIn, tIn_beq_tOut, tOut_beq_tIn, tOut_beq_tOut] <;>
        omega
    · have hpid : part_id ≠ p0.id := by
        intro hco
        simp [hco] at hid
      unfold adjustStock
      rw [if_neg hid]
      simp [hpid]
      omega

/-- Helper: a successful item creation preserves well-formedness; the new
row starts with equal cached and creation quantities and no transactions
referencing its id. -/
theorem insert_part_WF (s : Store) (d : PartData) (s' : Store) (n : Nat)
    (hw : StoreWF s) (hok : insert_part s d = .ok (s', n)) : StoreWF s' := by
  obtain ⟨hb, hr, hi⟩ := hw
  unfold insert_part at hok
  split at hok
  · exact absurd hok (by simp)
  · dsimp only at hok
    split at hok
    · exact absurd hok (by simp)
    · split at hok
      · exact absurd hok (by simp)
      · simp only [Except.ok.injEq, Prod.mk.injEq] at hok
        rw [← hok.1]
        have hfresh : ∀ t ∈ s.transactions, t.part_id ≠ s.nextPartId := by
          intro t ht
          obtain ⟨p0, hp0, hpid⟩ := hr t ht
          have := hb p0 hp0
          omega
        refine ⟨?_, ?_, ?_⟩
        · intro p hp
          simp only [List.mem_append, List.mem_singleton] at hp
          rcases hp with hp | rfl
          · have := hb p hp
            show p.id < s.nextPartId + 1
            omega
          · show s.nextPartId < s.nextPartId + 1
            omega
        · intro t ht
          obtain ⟨p0, hp0, hpid⟩ := hr t ht
          exact ⟨p0, List.mem_append_left _ hp0, hpid⟩
        · intro p hp
          simp only [List.mem_append, List.mem_singleton] at hp
          rcases hp with hp | rfl
          · exact hi p hp
          · show d.current_stock.getD 0 =
              d.current_stock.getD 0 +
                txTotal s.transactions s.nextPartId .tIn -
                txTotal s.transactions s.nextPartId .tOut
            rw [txTotal_not_referenced s.transactions s.nextPartId .tIn hfresh,
              txTotal_not_referenced s.transactions s.nextPartId .tOut hfresh]
            omega

/-- Helper: every ledger operation whose target exists preserves
well-formedness. -/
theorem applyOp_WF (s : Store) (op : LedgerOp) (hw : StoreWF s)
    (hv : opTargetsExisting s op = true) : StoreWF (applyOp s op) := by
  cases op with
  | create d =>
      simp only [applyOp]
      split
      · rename_i s' n hres
        exact insert_part_WF s d s' n hw hres
      · exact hw
  | stockIn part_id q price reference notes =>
      have hex : ∃ p ∈ s.parts, p.id = part_id := by
        simpa [opTargetsExisting, List.any_eq_true] using hv
      simp only [applyOp]
      split
      · rename_i s' n hres
        unfold stock_in at hres
        split at hres
        · exact absurd hres (by simp)
        · simp only [Except.ok.injEq] at hres
          have hwf := record_transaction_WF s part_id .tIn q price reference
            notes hw hex
          rw [hres] at hwf
          exact hwf
      · exact hw
  | stockOut part_id q price reference notes =>
      have hex : ∃ p ∈ s.parts, p.id = part_id := by
        simpa [opTargetsExisting, List.any_eq_true] using hv
      simp only [applyOp]
      split
      · rename_i s' n hres
        unfold stock_out at hres
        split at hres
        · exact absurd hres (by simp)
        · split at hres
          · rename_i pr
            simp only [Except.ok.injEq] at hres
            have hwf := record_transaction_WF s part_id .tOut q pr reference
              notes hw hex
            rw [hres] at hwf
            exact hwf
          · split at hres
            · exact absurd hres (by simp)
            · rename_i pt heq
              simp only [Except.ok.injEq] at hres
              have hwf := record_transaction_WF s part_id .tOut q
                pt.unit_cost reference notes hw hex
              rw [hres] at hwf
              exact hwf
      · exact hw

/-- Helper: well-formedness along any valid operation sequence. -/
theorem validOps_WF (ops : List LedgerOp) (s : Store) (hw : StoreWF s)
    (hv : validOps s ops = true) : StoreWF (applyOps s ops) := by
  induction ops generalizing s with
  | nil => exact hw
  | cons op rest ih =>
      simp only [validOps, Bool.and_eq_true] at hv
      exact ih _ (applyOp_WF s op hw hv.1) hv.2

/-- C1 (amended): after any sequence of ledger operations each of whose
stock movements targets an item existing at call time, every item's cached
quantity equals its quantity at creation plus the sum of the IN transaction
quantities minus the sum of the OUT transaction quantities over the
transactions referencing it.  (As stated over all sequences the claim is
false, because the store never checks that a stock movement's item id
exists — see the counterexample.) -/
theorem ledger_invariant_maintained (ops : List LedgerOp)
    (hv : validOps Store.empty ops = true) :
    LedgerInvariant (applyOps Store.empty ops) :=
  (validOps_WF ops Store.empty
      ⟨fun p hp => absurd hp (List.not_mem_nil p),
       fun t ht => absurd ht (List.not_mem_nil t),
       fun p hp => absurd hp (List.not_mem_nil p)⟩ hv).2.2

/-- Witness for C1 (amended): create an item, stock 5 in, stock 2 out; the
invariant holds on the resulting store. -/
theorem ledger_invariant_maintained_witness :
    LedgerInvariant (applyOps Store.empty
      [.create ⟨some "A", none, none, none, none, none, none⟩,
       .stockIn 1 5 1 none none,
       .stockOut 1 2 none none none]) :=
  ledger_invariant_maintained
    [.create ⟨some "A", none, none, none, none, none, none⟩,
     .stockIn 1 5 1 none none,
     .stockOut 1 2 none none none] (by decide)

/-- Counterexample to C1 as stated: stock_in accepts an item id with no
item row and records an orphan transaction (the store performs no existence
check); when that id is later assigned to a newly created item, the new
item's cached quantity (0) differs from its creation quantity plus
transaction totals (0 + 10 - 0). -/
theorem ledger_invariant_counterexample :
    ¬ LedgerInvariant (applyOps Store.empty
      [.stockIn 1 10 1 none none,
       .create ⟨some "B", none, none, none, none, none, none⟩]) := by
  decide

end InventoryLedger

namespace InventoryLedger

/-- Witness for C9 at min_quantity 3: quantity 0 is out of stock, quantity
3 (the boundary) is low stock, quantity 4 is in stock. -/
theorem stockStatus_classification_witness :
    (stockStatus 0 3 = .outOfStock ↔ (0 : Int) ≤ 0) ∧
    stockStatus 3 3 = .lowStock ∧
    stockStatus 4 3 = .inStock :=
  ⟨(stockStatus_classification 0 3).1,
   (stockStatus_classification 3 3).2.2.2.1 (by decide),
   (stockStatus_classification 3 3).2.2.2.2 (by decide)⟩

/-- Witness for C7 on a store with one item (id 1) owning two transactions:
the first delete returns true, the second false, and no transaction or item
row for id 1 survives. -/
theorem delete_part_cascades_and_idempotent_witness :
    ((delete_part ⟨[⟨1, "P", "", "", 5, 0, 1, "", 0⟩],
        [⟨1, 1, .tIn, 7, 1, none, none⟩, ⟨2, 1, .tOut, 2, 1, none, none⟩],
        2, 3⟩ 1).2 = true ↔
      ∃ p ∈ (⟨[⟨1, "P", "", "", 5, 0, 1, "", 0⟩],
        [⟨1, 1, .tIn, 7, 1, none, none⟩, ⟨2, 1, .tOut, 2, 1, none, none⟩],
        2, 3⟩ : Store).parts, p.id = 1) ∧
    (delete_part (delete_part ⟨[⟨1, "P", "", "", 5, 0, 1, "", 0⟩],
        [⟨1, 1, .tIn, 7, 1, none, none⟩, ⟨2, 1, .tOut, 2, 1, none, none⟩],
        2, 3⟩ 1).1 1).2 = false ∧
    (delete_part ⟨[⟨1, "P", "", "", 5, 0, 1, "", 0⟩],
        [⟨1, 1, .tIn, 7, 1, none, none⟩, ⟨2, 1, .tOut, 2, 1, none, none⟩],
        2, 3⟩ 1).1.transactions.filter (fun t => t.part_id == 1) = [] ∧
    (delete_part ⟨[⟨1, "P", "", "", 5, 0, 1, "", 0⟩],
        [⟨1, 1, .tIn, 7, 1, none, none⟩, ⟨2, 1, .tOut, 2, 1, none, none⟩],
        2, 3⟩ 1).1.parts.filter (fun p => p.id == 1) = [] :=
  delete_part_cascades_and_idempotent
    ⟨[⟨1, "P", "", "", 5, 0, 1, "", 0⟩],
     [⟨1, 1, .tIn, 7, 1, none, none⟩, ⟨2, 1, .tOut, 2, 1, none, none⟩],
     2, 3⟩ 1

end InventoryLedger
